import Mathlib

/-!
Verification of `ue5/nightshade_bridge.py`, a small JSON-RPC 2.0 client
("nightshade bridge") that posts `tools/call` requests to an MCP endpoint.

Shallow embedding: Python JSON values are modelled by `Json`; general Python
values passed as `arguments` (which may fail to serialize) by `PyVal`;
`json.dumps`, `json.loads`, UTF-8 encoding/decoding are implemented over these
types; the single HTTP round trip performed by `urllib.request.urlopen` is
modelled by a network oracle mapping an HTTP request to a server behaviour
(unreachable / respond after a delay), and `call_tool` is expressed as a small
request-issuing program so that the number of outbound requests of a call is
itself a definable quantity.

Numbers are modelled as integers (every numeric literal in the source is an
integer); floats do not occur in the program.
-/

/-- A JSON value, as produced by `json.loads` and consumed by `json.dumps`.
Objects are ordered key-value lists, mirroring Python dict insertion order. -/
inductive Json where
  | null : Json
  | bool (b : Bool) : Json
  | num (n : Int) : Json
  | str (s : String) : Json
  | arr (xs : List Json) : Json
  | obj (kvs : List (String × Json)) : Json

/-- A Python value as it may appear in the `arguments` parameter of
`call_tool`: JSON-representable data, or an object (`object name`) that
`json.dumps` cannot serialize (e.g. a set), raising `TypeError`. -/
inductive PyVal where
  | null : PyVal
  | bool (b : Bool) : PyVal
  | int (n : Int) : PyVal
  | str (s : String) : PyVal
  | list (xs : List PyVal) : PyVal
  | dict (kvs : List (String × PyVal)) : PyVal
  | object (name : String) : PyVal

mutual

/-- Convert a Python value to a JSON value; `none` exactly when the value
contains a non-serializable object, in which case `json.dumps` raises
`TypeError`. -/
def PyVal.toJson : PyVal → Option Json
  | .null => some .null
  | .bool b => some (.bool b)
  | .int n => some (.num n)
  | .str s => some (.str s)
  | .list xs => (PyVal.toJsonList xs).map Json.arr
  | .dict kvs => (PyVal.toJsonKvs kvs).map Json.obj
  | .object _ => none

/-- Convert a list of Python values, failing if any element fails. -/
def PyVal.toJsonList : List PyVal → Option (List Json)
  | [] => some []
  | x :: xs => do
    let j ← PyVal.toJson x
    let js ← PyVal.toJsonList xs
    pure (j :: js)

/-- Convert the entries of a Python dict, failing if any value fails. -/
def PyVal.toJsonKvs : List (String × PyVal) → Option (List (String × Json))
  | [] => some []
  | (k, v) :: kvs => do
    let j ← PyVal.toJson v
    let js ← PyVal.toJsonKvs kvs
    pure ((k, j) :: js)

end

/-- Lowercase hexadecimal digit for a value below 16. -/
def hexDigit (n : Nat) : Char :=
  if n < 10 then Char.ofNat (48 + n) else Char.ofNat (87 + n)

/-- Four lowercase hex digits, as in Python's `\uXXXX` escapes. -/
def hex4 (n : Nat) : String :=
  String.mk [hexDigit (n / 4096 % 16), hexDigit (n / 256 % 16),
             hexDigit (n / 16 % 16), hexDigit (n % 16)]

/-- Escape one character the way `json.dumps` (default `ensure_ascii=True`)
does: short escapes for the common controls, `\uXXXX` for the remaining
controls and all non-ASCII characters (with surrogate pairs above U+FFFF). -/
def escapeChar (c : Char) : String :=
  if c = '"' then "\\\""
  else if c = '\\' then "\\\\"
  else if c = '\n' then "\\n"
  else if c = '\t' then "\\t"
  else if c = '\r' then "\\r"
  else if c = Char.ofNat 8 then "\\b"
  else if c = Char.ofNat 12 then "\\f"
  else if c.toNat < 32 ∨ 126 < c.toNat then
    if c.toNat < 65536 then "\\u" ++ hex4 c.toNat
    else
      let v := c.toNat - 65536
      "\\u" ++ hex4 (55296 + v / 1024) ++ "\\u" ++ hex4 (56320 + v % 1024)
  else String.mk [c]

/-- Serialize a string literal with quotes and escapes, as `json.dumps` does. -/
def quoteString (s : String) : String :=
  "\"" ++ String.join (s.toList.map escapeChar) ++ "\""

mutual

/-- Python `json.dumps` with default separators `", "` and `": "`. -/
def Json.dumps : Json → String
  | .null => "null"
  | .bool true => "true"
  | .bool false => "false"
  | .num n => toString n
  | .str s => quoteString s
  | .arr xs => "[" ++ Json.dumpsList xs ++ "]"
  | .obj kvs => "\x7b" ++ Json.dumpsKvs kvs ++ "\x7d"

/-- Comma-space-joined serializations of array elements. -/
def Json.dumpsList : List Json → String
  | [] => ""
  | [x] => Json.dumps x
  | x :: xs => Json.dumps x ++ ", " ++ Json.dumpsList xs

/-- Comma-space-joined `"key": value` serializations of object entries. -/
def Json.dumpsKvs : List (String × Json) → String
  | [] => ""
  | [(k, v)] => quoteString k ++ ": " ++ Json.dumps v
  | (k, v) :: kvs => quoteString k ++ ": " ++ Json.dumps v ++ ", " ++ Json.dumpsKvs kvs

end

/-- Indentation prefix: `2 * level` spaces preceded by a newline, as produced
by `json.dumps(..., indent=2)`. -/
def indentPrefix (level : Nat) : String :=
  "\n" ++ String.mk (List.replicate (2 * level) ' ')

mutual

/-- Python `json.dumps(value, indent=2)` at a given nesting level: item
separator `","` followed by a newline and indentation, key separator `": "`. -/
def Json.dumpsIndentAux : Nat → Json → String
  | _, .null => "null"
  | _, .bool true => "true"
  | _, .bool false => "false"
  | _, .num n => toString n
  | _, .str s => quoteString s
  | _, .arr [] => "[]"
  | level, .arr (x :: xs) =>
      "[" ++ indentPrefix (level + 1) ++ Json.dumpsIndentList (level + 1) (x :: xs) ++
        indentPrefix level ++ "]"
  | _, .obj [] => "\x7b\x7d"
  | level, .obj (kv :: kvs) =>
      "\x7b" ++ indentPrefix (level + 1) ++ Json.dumpsIndentKvs (level + 1) (kv :: kvs) ++
        indentPrefix level ++ "\x7d"

/-- Indented serializations of array elements. -/
def Json.dumpsIndentList : Nat → List Json → String
  | _, [] => ""
  | level, [x] => Json.dumpsIndentAux level x
  | level, x :: xs =>
      Json.dumpsIndentAux level x ++ "," ++ indentPrefix level ++
        Json.dumpsIndentList level xs

/-- Indented `"key": value` serializations of object entries. -/
def Json.dumpsIndentKvs : Nat → List (String × Json) → String
  | _, [] => ""
  | level, [(k, v)] => quoteString k ++ ": " ++ Json.dumpsIndentAux level v
  | level, (k, v) :: kvs =>
      quoteString k ++ ": " ++ Json.dumpsIndentAux level v ++ "," ++
        indentPrefix level ++ Json.dumpsIndentKvs level kvs

end

/-- Python `json.dumps(value, indent=2)`, starting at nesting level 0. -/
def Json.dumpsIndent2 (j : Json) : String :=
  Json.dumpsIndentAux 0 j

/-- UTF-8 encoding of one code point (as performed by `str.encode("utf-8")`). -/
def utf8EncodeChar (n : Nat) : List Nat :=
  if n < 128 then [n]
  else if n < 2048 then [192 + n / 64, 128 + n % 64]
  else if n < 65536 then [224 + n / 4096, 128 + n / 64 % 64, 128 + n % 64]
  else [240 + n / 262144, 128 + n / 4096 % 64, 128 + n / 64 % 64, 128 + n % 64]

/-- UTF-8 encoding of a string to a byte sequence, `str.encode("utf-8")`. -/
def utf8Encode (s : String) : List Nat :=
  (s.toList.map (fun c => utf8EncodeChar c.toNat)).flatten

/-- Whether a byte is a UTF-8 continuation byte (`0x80`–`0xBF`). -/
def isCont (b : Nat) : Bool :=
  128 ≤ b ∧ b < 192

/-- Strict UTF-8 decoding of a byte sequence to code points, as performed by
`bytes.decode("utf-8")`: rejects invalid lead bytes, truncated sequences,
overlong encodings, surrogates, and values above U+10FFFF (`none` models the
`UnicodeDecodeError` that Python raises). Fuel bounds the recursion. -/
def utf8DecodeAux : Nat → List Nat → Option (List Char)
  | 0, _ => none
  | _, [] => some []
  | fuel + 1, b :: bs =>
    if b < 128 then
      (utf8DecodeAux fuel bs).map (Char.ofNat b :: ·)
    else if 194 ≤ b ∧ b < 224 then
      match bs with
      | b2 :: bs2 =>
        if isCont b2 then
          (utf8DecodeAux fuel bs2).map (Char.ofNat ((b - 192) * 64 + (b2 - 128)) :: ·)
        else none
      | _ => none
    else if 224 ≤ b ∧ b < 240 then
      match bs with
      | b2 :: b3 :: bs3 =>
        if isCont b2 ∧ isCont b3 then
          let v := (b - 224) * 4096 + (b2 - 128) * 64 + (b3 - 128)
          if 2048 ≤ v ∧ ¬(55296 ≤ v ∧ v < 57344) then
            (utf8DecodeAux fuel bs3).map (Char.ofNat v :: ·)
          else none
        else none
      | _ => none
    else if 240 ≤ b ∧ b < 245 then
      match bs with
      | b2 :: b3 :: b4 :: bs4 =>
        if isCont b2 ∧ isCont b3 ∧ isCont b4 then
          let v := (b - 240) * 262144 + (b2 - 128) * 4096 + (b3 - 128) * 64 + (b4 - 128)
          if 65536 ≤ v ∧ v < 1114112 then
            (utf8DecodeAux fuel bs4).map (Char.ofNat v :: ·)
          else none
        else none
      | _ => none
    else none

/-- Strict UTF-8 decoding of bytes to a string, `bytes.decode("utf-8")`. -/
def utf8Decode (bs : List Nat) : Option String :=
  (utf8DecodeAux (bs.length + 1) bs).map String.mk

/-- Skip JSON whitespace, as `json.loads` does between tokens. -/
def skipWs : List Char → List Char
  | c :: cs => if c = ' ' ∨ c = '\t' ∨ c = '\n' ∨ c = '\r' then skipWs cs else c :: cs
  | [] => []

/-- Whether a character is an ASCII decimal digit. -/
def isDigitChar (c : Char) : Bool :=
  48 ≤ c.toNat ∧ c.toNat ≤ 57

/-- Hexadecimal digit value of a character, if it is one. -/
def hexVal (c : Char) : Option Nat :=
  if 48 ≤ c.toNat ∧ c.toNat ≤ 57 then some (c.toNat - 48)
  else if 97 ≤ c.toNat ∧ c.toNat ≤ 102 then some (c.toNat - 87)
  else if 65 ≤ c.toNat ∧ c.toNat ≤ 70 then some (c.toNat - 55)
  else none

/-- Parse the remainder of a JSON string literal (after the opening quote),
handling the standard escapes. A `\uXXXX` escape denoting a lone surrogate is
not representable as a `Char` and is rejected. Returns the decoded characters
and the input remaining after the closing quote. -/
def parseStringBody : Nat → List Char → Option (List Char × List Char)
  | 0, _ => none
  | _, [] => none
  | fuel + 1, c :: cs =>
    if c = '"' then some ([], cs)
    else if c = '\\' then
      match cs with
      | [] => none
      | e :: cs2 =>
        if e = '"' ∨ e = '\\' ∨ e = '/' then
          (parseStringBody fuel cs2).map (fun (chars, rest) => (e :: chars, rest))
        else if e = 'b' then
          (parseStringBody fuel cs2).map (fun (chars, rest) => (Char.ofNat 8 :: chars, rest))
        else if e = 'f' then
          (parseStringBody fuel cs2).map (fun (chars, rest) => (Char.ofNat 12 :: chars, rest))
        else if e = 'n' then
          (parseStringBody fuel cs2).map (fun (chars, rest) => ('\n' :: chars, rest))
        else if e = 'r' then
          (parseStringBody fuel cs2).map (fun (chars, rest) => ('\r' :: chars, rest))
        else if e = 't' then
          (parseStringBody fuel cs2).map (fun (chars, rest) => ('\t' :: chars, rest))
        else if e = 'u' then
          match cs2 with
          | h1 :: h2 :: h3 :: h4 :: cs3 => do
            let v1 ← hexVal h1
            let v2 ← hexVal h2
            let v3 ← hexVal h3
            let v4 ← hexVal h4
            let v := v1 * 4096 + v2 * 256 + v3 * 16 + v4
            if 55296 ≤ v ∧ v < 56320 then
              match cs3 with
              | u :: l :: g1 :: g2 :: g3 :: g4 :: cs4 =>
                if u = '\\' ∧ l = 'u' then do
                  let w1 ← hexVal g1
                  let w2 ← hexVal g2
                  let w3 ← hexVal g3
                  let w4 ← hexVal g4
                  let w := w1 * 4096 + w2 * 256 + w3 * 16 + w4
                  if 56320 ≤ w ∧ w < 57344 then
                    (parseStringBody fuel cs4).map (fun (chars, rest) =>
                      (Char.ofNat (65536 + (v - 55296) * 1024 + (w - 56320)) :: chars, rest))
                  else none
                else none
              | _ => none
            else if 56320 ≤ v ∧ v < 57344 then none
            else
              (parseStringBody fuel cs3).map (fun (chars, rest) =>
                (Char.ofNat v :: chars, rest))
          | _ => none
        else none
    else
      (parseStringBody fuel cs).map (fun (chars, rest) => (c :: chars, rest))

/-- Parse a run of decimal digits into its value and the remaining input. -/
def parseDigits : Nat → List Char → Nat → Option (Nat × List Char)
  | 0, _, _ => none
  | _, [], acc => some (acc, [])
  | fuel + 1, c :: cs, acc =>
    if isDigitChar c then parseDigits fuel cs (acc * 10 + (c.toNat - 48))
    else some (acc, c :: cs)

mutual

/-- Parse one JSON value (integers only; no float occurs in the program) and
return the remaining input. Models `json.loads`'s recursive-descent scanner. -/
def parseValue : Nat → List Char → Option (Json × List Char)
  | 0, _ => none
  | _, [] => none
  | fuel + 1, input =>
    match skipWs input with
    | [] => none
    | c :: cs =>
      if c = 'n' then
        match cs with
        | 'u' :: 'l' :: 'l' :: rest => some (.null, rest)
        | _ => none
      else if c = 't' then
        match cs with
        | 'r' :: 'u' :: 'e' :: rest => some (.bool true, rest)
        | _ => none
      else if c = 'f' then
        match cs with
        | 'a' :: 'l' :: 's' :: 'e' :: rest => some (.bool false, rest)
        | _ => none
      else if c = '"' then
        (parseStringBody (cs.length + 1) cs).map (fun (chars, rest) =>
          (.str (String.mk chars), rest))
      else if c = '-' then
        match cs with
        | d :: _ =>
          if isDigitChar d then
            (parseDigits (cs.length + 1) cs 0).map (fun (n, rest) =>
              (.num (-(n : Int)), rest))
          else none
        | _ => none
      else if isDigitChar c then
        (parseDigits (cs.length + 2) (c :: cs) 0).map (fun (n, rest) =>
          (.num (n : Int), rest))
      else if c = '\x7b' then
        match skipWs cs with
        | d :: ds => if d = '\x7d' then some (.obj [], ds) else parseMembers fuel (d :: ds) []
        | [] => none
      else if c = '[' then
        match skipWs cs with
        | d :: ds => if d = ']' then some (.arr [], ds) else parseElements fuel (d :: ds) []
        | [] => none
      else none

/-- Parse the non-empty member list of a JSON object, accumulating entries. -/
def parseMembers : Nat → List Char → List (String × Json) → Option (Json × List Char)
  | 0, _, _ => none
  | fuel + 1, input, acc =>
    match skipWs input with
    | c :: cs =>
      if c = '"' then
        match parseStringBody (cs.length + 1) cs with
        | none => none
        | some (chars, rest) =>
          match skipWs rest with
          | colon :: rest2 =>
            if colon = ':' then
              match parseValue fuel rest2 with
              | none => none
              | some (v, rest3) =>
                let acc2 := acc ++ [(String.mk chars, v)]
                match skipWs rest3 with
                | sep :: rest4 =>
                  if sep = ',' then parseMembers fuel rest4 acc2
                  else if sep = '\x7d' then some (.obj acc2, rest4)
                  else none
                | [] => none
            else none
          | [] => none
      else none
    | [] => none

/-- Parse the non-empty element list of a JSON array, accumulating elements. -/
def parseElements : Nat → List Char → List Json → Option (Json × List Char)
  | 0, _, _ => none
  | fuel + 1, input, acc =>
    match parseValue fuel input with
    | none => none
    | some (v, rest) =>
      let acc2 := acc ++ [v]
      match skipWs rest with
      | sep :: rest2 =>
        if sep = ',' then parseElements fuel rest2 acc2
        else if sep = ']' then some (.arr acc2, rest2)
        else none
      | [] => none

end

/-- Python `json.loads`: parse a complete JSON document, requiring the input
to be exhausted apart from trailing whitespace. -/
def Json.loads (s : String) : Option Json :=
  match parseValue (s.length + 1) s.toList with
  | none => none
  | some (v, rest) => if skipWs rest = [] then some v else none

/-- Field lookup in a JSON object (`none` on non-objects or missing keys). -/
def Json.get : Json → String → Option Json
  | .obj kvs, k => List.lookup k kvs
  | _, _ => none

/-- Key lookup in a Python dict value (`none` on non-dicts or missing keys). -/
def PyVal.get : PyVal → String → Option PyVal
  | .dict kvs, k => List.lookup k kvs
  | _, _ => none

/-- The HTTP request assembled by `urllib.request.Request(...)` in
`call_tool`: URL, UTF-8 body bytes, headers, and method. -/
structure HttpRequest where
  url : String
  data : List Nat
  headers : List (String × String)
  method : String
deriving DecidableEq

/-- How the server at the other end behaves for a given request: the
connection cannot be established, or a response body arrives after a delay. -/
inductive ServerBehavior where
  | unreachable : ServerBehavior
  | respondAfter (delay : Nat) (body : List Nat) : ServerBehavior

/-- A network oracle: the behaviour the outside world exhibits per request. -/
def Server : Type := HttpRequest → ServerBehavior

/-- The Python exceptions `call_tool` can propagate: `TypeError` from
`json.dumps`, `URLError` / `socket.timeout` from `urlopen`,
`UnicodeDecodeError` from `.decode("utf-8")`, `JSONDecodeError` from
`json.loads`. -/
inductive PyErr where
  | typeError : PyErr
  | urlError : PyErr
  | timeoutError : PyErr
  | unicodeDecodeError : PyErr
  | jsonDecodeError : PyErr
deriving DecidableEq, Repr

/-- Semantics of `urllib.request.urlopen(request, timeout=t)` followed by
`response.read()`: fails if the connection cannot be established, times out if
the server's delay exceeds the timeout, otherwise yields the body bytes. -/
def urlopenRead (timeout : Nat) : ServerBehavior → Except PyErr (List Nat)
  | .unreachable => .error .urlError
  | .respondAfter d body => if timeout < d then .error .timeoutError else .ok body

/-- A program that may issue HTTP requests: it finishes with a value, raises
an exception, or issues one request with a timeout and continues on the read
outcome. Expressing `call_tool` in this form makes the list of requests a
call sends a definable quantity. -/
inductive NetProg (α : Type) where
  | done (a : α) : NetProg α
  | fail (e : PyErr) : NetProg α
  | ask (req : HttpRequest) (timeout : Nat) (k : Except PyErr (List Nat) → NetProg α) :
      NetProg α

/-- Run a request-issuing program against a network oracle. -/
def NetProg.run {α : Type} : NetProg α → Server → Except PyErr α
  | .done a, _ => .ok a
  | .fail e, _ => .error e
  | .ask req t k, net => (k (urlopenRead t (net req))).run net

/-- The requests a program issues when run against a network oracle. -/
def NetProg.trace {α : Type} : NetProg α → Server → List HttpRequest
  | .done _, _ => []
  | .fail _, _ => []
  | .ask req t k, net => req :: (k (urlopenRead t (net req))).trace net

/-- The module-level default endpoint of the bridge. -/
def MCP_ENDPOINT : String := "http://localhost:8787/mcp"

/-- The `payload` dictionary `call_tool` builds: the JSON-RPC 2.0 envelope
with constant version, id, and method, and the tool name and arguments under
`params`. -/
def payloadOf (tool_name : String) (arguments : PyVal) : PyVal :=
  .dict [("jsonrpc", .str "2.0"),
         ("id", .str "nightshade-ue5"),
         ("method", .str "tools/call"),
         ("params", .dict [("name", .str tool_name),
                           ("arguments", arguments)])]

/-- The `urllib.request.Request` value `call_tool` builds: `json.dumps` of
the payload encoded as UTF-8, the `Content-Type` header, method POST. `none`
when `json.dumps` raises `TypeError` on a non-serializable argument. -/
def requestOf (tool_name : String) (arguments : PyVal) (endpoint : String) :
    Option HttpRequest :=
  (PyVal.toJson (payloadOf tool_name arguments)).map fun j =>
    { url := endpoint,
      data := utf8Encode (Json.dumps j),
      headers := [("Content-Type", "application/json")],
      method := "POST" }

/-- What `call_tool` does after the read: propagate any transport failure,
otherwise UTF-8-decode and JSON-parse the body, propagating those failures. -/
def call_tool_k : Except PyErr (List Nat) → NetProg Json
  | .error e => .fail e
  | .ok body =>
    match utf8Decode body with
    | none => .fail .unicodeDecodeError
    | some s =>
      match Json.loads s with
      | none => .fail .jsonDecodeError
      | some v => .done v

/-- The body of `call_tool` as a request-issuing program: serialize the
payload (raising `TypeError` if impossible), issue one POST with a 30-unit
timeout, then continue with `call_tool_k` on the read outcome. -/
def call_tool_prog (tool_name : String) (arguments : PyVal)
    (endpoint : String := MCP_ENDPOINT) : NetProg Json :=
  match requestOf tool_name arguments endpoint with
  | none => .fail .typeError
  | some req => .ask req 30 call_tool_k

/-- `call_tool(tool_name, arguments, endpoint=MCP_ENDPOINT)`, run against a
network oracle standing for the outside world. -/
def call_tool (net : Server) (tool_name : String) (arguments : PyVal)
    (endpoint : String := MCP_ENDPOINT) : Except PyErr Json :=
  (call_tool_prog tool_name arguments endpoint).run net

/-- The `arguments` dictionary assembled by `run_prefab_audit`. -/
def prefabAuditArgs (target : String) : PyVal :=
  .dict [("command", .str "prefab_audit"),
         ("target", .str target),
         ("checks", .list [.str "naming", .str "collision", .str "performance"])]

/-- `run_prefab_audit(target="WeaponAssets")`. -/
def run_prefab_audit (net : Server) (target : String := "WeaponAssets") :
    Except PyErr Json :=
  call_tool net "prefab_audit" (prefabAuditArgs target)

/-- The `arguments` dictionary assembled by `run_scene_refactor`. -/
def sceneRefactorArgs (scene : String) (dry_run : Bool) : PyVal :=
  .dict [("command", .str "scene_refactor"),
         ("scene", .str scene),
         ("steps", .list [.str "remove_empty_groups", .str "rebuild_navigation"]),
         ("dry_run", .bool dry_run)]

/-- `run_scene_refactor(scene="Arena", dry_run=True)`. -/
def run_scene_refactor (net : Server) (scene : String := "Arena")
    (dry_run : Bool := true) : Except PyErr Json :=
  call_tool net "scene_refactor" (sceneRefactorArgs scene dry_run)

/-- The `arguments` dictionary assembled by `run_bulk_edit`. -/
def bulkEditArgs (target : String) : PyVal :=
  .dict [("command", .str "bulk_edit_assets"),
         ("target", .str target),
         ("modifications", .dict [("damage", .int 42), ("range", .int 120)]),
         ("dry_run", .bool true)]

/-- `run_bulk_edit(target="WeaponAssets")`. -/
def run_bulk_edit (net : Server) (target : String := "WeaponAssets") :
    Except PyErr Json :=
  call_tool net "bulk_edit_assets" (bulkEditArgs target)

/-- The `if __name__ == "__main__"` block: print a literal status line, then
the pretty-printed (indent=2) JSON of `run_prefab_audit()`. Returns the list
of strings printed to stdout and the uncaught exception, if any (the status
line is printed before the request is made). -/
def mainStdout (net : Server) : List String × Option PyErr :=
  match run_prefab_audit net with
  | .ok r => (["Running prefab audit...", Json.dumpsIndent2 r], none)
  | .error e => (["Running prefab audit..."], some e)

/-- The JSON-RPC envelope as a JSON value, once `arguments` has converted. -/
def envelopeJson (tool_name : String) (argj : Json) : Json :=
  .obj [("jsonrpc", .str "2.0"),
        ("id", .str "nightshade-ue5"),
        ("method", .str "tools/call"),
        ("params", .obj [("name", .str tool_name), ("arguments", argj)])]

/-- What `call_tool` does to a response body that arrived in time:
`json.loads(response.read().decode("utf-8"))`, with each failure mapped to
the exception Python raises. -/
def pyLoadsBytes (body : List Nat) : Except PyErr Json :=
  match utf8Decode body with
  | none => .error .unicodeDecodeError
  | some s =>
    match Json.loads s with
    | none => .error .jsonDecodeError
    | some v => .ok v

theorem payload_toJson (tool_name : String) (args : PyVal) (argj : Json)
    (h : args.toJson = some argj) :
    (payloadOf tool_name args).toJson = some (envelopeJson tool_name argj) := by
  simp [payloadOf, PyVal.toJson, PyVal.toJsonKvs, envelopeJson, h]

theorem payload_toJson_none (tool_name : String) (args : PyVal)
    (h : args.toJson = none) :
    (payloadOf tool_name args).toJson = none := by
  simp [payloadOf, PyVal.toJson, PyVal.toJsonKvs, h]

theorem requestOf_eq (tool_name : String) (args : PyVal) (endpoint : String)
    (argj : Json) (h : args.toJson = some argj) :
    requestOf tool_name args endpoint =
      some { url := endpoint,
             data := utf8Encode (Json.dumps (envelopeJson tool_name argj)),
             headers := [("Content-Type", "application/json")],
             method := "POST" } := by
  simp [requestOf, payload_toJson tool_name args argj h]

theorem requestOf_none (tool_name : String) (args : PyVal) (endpoint : String)
    (h : args.toJson = none) :
    requestOf tool_name args endpoint = none := by
  simp [requestOf, payload_toJson_none tool_name args h]

theorem call_tool_of_response (net : Server) (tool_name : String) (args : PyVal)
    (endpoint : String) (req : HttpRequest) (d : Nat) (body : List Nat)
    (h1 : requestOf tool_name args endpoint = some req)
    (h2 : net req = .respondAfter d body) (h3 : d ≤ 30) :
    call_tool net tool_name args endpoint = pyLoadsBytes body := by
  unfold call_tool call_tool_prog
  rw [h1]
  simp only [NetProg.run, urlopenRead, h2, Nat.not_lt.mpr h3, if_neg, if_false]
  unfold pyLoadsBytes call_tool_k
  rcases hd : utf8Decode body with _ | s
  · simp [hd, NetProg.run]
  · rcases hl : Json.loads s with _ | v <;> simp [hd, hl, NetProg.run]


/-- A mock endpoint that parses the request it receives and echoes its
`params` back inside `\x7b"ok": true, "echo": <received params>\x7d`. -/
def echoServer : Server := fun req =>
  match utf8Decode req.data with
  | none => .unreachable
  | some s =>
    match Json.loads s with
    | none => .unreachable
    | some j =>
      match j.get "params" with
      | none => .unreachable
      | some params =>
        .respondAfter 0 (utf8Encode (Json.dumps (.obj [("ok", .bool true), ("echo", params)])))

/-- The concrete request `call_tool("x", \x7b"a": 1\x7d)` sends. -/
def echoReq : HttpRequest :=
  { url := MCP_ENDPOINT,
    data := utf8Encode (Json.dumps (envelopeJson "x" (.obj [("a", .num 1)]))),
    headers := [("Content-Type", "application/json")],
    method := "POST" }

/-- The body the echo endpoint returns for `echoReq`. -/
def echoBody : List Nat :=
  utf8Encode (Json.dumps (.obj [("ok", .bool true),
    ("echo", .obj [("name", .str "x"), ("arguments", .obj [("a", .num 1)])])]))

/-- C1: for every tool name and arguments, `call_tool` sends exactly the
JSON-serialization of the JSON-RPC envelope
`\x7bjsonrpc: "2.0", id: "nightshade-ue5", method: "tools/call",
params: \x7bname, arguments\x7d\x7d` (UTF-8-encoded), whose `params.name` is the tool
name and whose `params.arguments` is the arguments value, posted with header
`Content-Type: application/json`. -/
theorem C1_call_tool_builds_envelope (tool_name : String) (args : PyVal)
    (endpoint : String) (argj : Json) (h : args.toJson = some argj) :
    requestOf tool_name args endpoint =
      some { url := endpoint,
             data := utf8Encode (Json.dumps (envelopeJson tool_name argj)),
             headers := [("Content-Type", "application/json")],
             method := "POST" }
    ∧ ((envelopeJson tool_name argj).get "params").bind (fun p => p.get "name")
        = some (.str tool_name)
    ∧ ((envelopeJson tool_name argj).get "params").bind (fun p => p.get "arguments")
        = some argj
    ∧ (envelopeJson tool_name argj).get "jsonrpc" = some (.str "2.0")
    ∧ (envelopeJson tool_name argj).get "id" = some (.str "nightshade-ue5")
    ∧ (envelopeJson tool_name argj).get "method" = some (.str "tools/call") := by
  refine ⟨requestOf_eq tool_name args endpoint argj h, ?_, ?_, ?_, ?_, ?_⟩ <;> rfl

/-- Witness for C1 at `tool_name = "x"`, `arguments = \x7b"a": 1\x7d`. -/
theorem C1_call_tool_builds_envelope_witness :
    (PyVal.dict [("a", PyVal.int 1)]).toJson = some (Json.obj [("a", Json.num 1)])
    ∧ requestOf "x" (.dict [("a", .int 1)]) MCP_ENDPOINT = some echoReq :=
  ⟨rfl, (C1_call_tool_builds_envelope "x" (.dict [("a", .int 1)]) MCP_ENDPOINT
    (.obj [("a", .num 1)]) rfl).1⟩

set_option maxRecDepth 10000 in
/-- C2: whenever the server answers within the timeout, `call_tool` returns
exactly the UTF-8-decoded, JSON-parsed response body with no validation or
transformation; in particular against the echo endpoint,
`call_tool("x", \x7b"a": 1\x7d)` returns a value whose `echo.arguments` is
`\x7b"a": 1\x7d`. -/
theorem C2_call_tool_returns_parsed_body (net : Server) (tool_name : String)
    (args : PyVal) (endpoint : String) (req : HttpRequest) (d : Nat)
    (body : List Nat) (h1 : requestOf tool_name args endpoint = some req)
    (h2 : net req = .respondAfter d body) (h3 : d ≤ 30) :
    call_tool net tool_name args endpoint = pyLoadsBytes body
    ∧ (call_tool echoServer "x" (.dict [("a", .int 1)])).toOption.bind
        (fun j => (j.get "echo").bind (fun e => e.get "arguments"))
        = some (.obj [("a", .num 1)]) :=
  ⟨call_tool_of_response net tool_name args endpoint req d body h1 h2 h3, rfl⟩

set_option maxRecDepth 10000 in
/-- Witness for C2: the echo endpoint answers `call_tool("x", \x7b"a": 1\x7d)`
with delay 0, and the call returns the parsed echo body. -/
theorem C2_call_tool_returns_parsed_body_witness :
    call_tool echoServer "x" (.dict [("a", .int 1)]) = pyLoadsBytes echoBody :=
  (C2_call_tool_returns_parsed_body echoServer "x" (.dict [("a", .int 1)])
    MCP_ENDPOINT echoReq 0 echoBody rfl rfl (by decide)).1

/-- C3: every failure of `call_tool` propagates uncaught with no partial or
default value: `TypeError` when the arguments are not JSON-serializable (no
request is sent), `URLError` when the connection cannot be established,
`socket.timeout` when the server exceeds the timeout, `UnicodeDecodeError`
when the body is not valid UTF-8, `JSONDecodeError` when it is not valid
JSON. -/
theorem C3_failures_propagate (net : Server) (tool_name : String) (args : PyVal)
    (endpoint : String) :
    (args.toJson = none → call_tool net tool_name args endpoint = .error .typeError)
    ∧ ∀ req, requestOf tool_name args endpoint = some req →
        (net req = .unreachable →
          call_tool net tool_name args endpoint = .error .urlError)
        ∧ (∀ d body, net req = .respondAfter d body → 30 < d →
            call_tool net tool_name args endpoint = .error .timeoutError)
        ∧ (∀ d body, net req = .respondAfter d body → d ≤ 30 →
            utf8Decode body = none →
            call_tool net tool_name args endpoint = .error .unicodeDecodeError)
        ∧ (∀ d body s, net req = .respondAfter d body → d ≤ 30 →
            utf8Decode body = some s → Json.loads s = none →
            call_tool net tool_name args endpoint = .error .jsonDecodeError) := by
  constructor
  · intro h
    unfold call_tool call_tool_prog
    rw [requestOf_none tool_name args endpoint h]
    rfl
  · intro req h1
    refine ⟨?_, ?_, ?_, ?_⟩
    · intro h2
      unfold call_tool call_tool_prog
      rw [h1]
      simp [NetProg.run, urlopenRead, h2]
    · intro d body h2 h3
      unfold call_tool call_tool_prog
      rw [h1]
      simp [NetProg.run, urlopenRead, h2, h3]
    · intro d body h2 h3 h4
      have h5 := call_tool_of_response net tool_name args endpoint req d body h1 h2 h3
      rw [h5]
      unfold pyLoadsBytes
      rw [h4]
    · intro d body s h2 h3 h4 h5
      have h6 := call_tool_of_response net tool_name args endpoint req d body h1 h2 h3
      rw [h6]
      unfold pyLoadsBytes
      rw [h4]
      simp [h5]

set_option maxRecDepth 10000 in
/-- Witness for C3: concrete instances of all five failure modes. -/
theorem C3_failures_propagate_witness :
    call_tool (fun _ => .unreachable) "x" (.dict []) = .error .urlError
    ∧ call_tool (fun _ => .respondAfter 31 []) "x" (.dict []) = .error .timeoutError
    ∧ call_tool (fun _ => .respondAfter 0 [255]) "x" (.dict [])
        = .error .unicodeDecodeError
    ∧ call_tool (fun _ => .respondAfter 0 (utf8Encode "oops")) "x" (.dict [])
        = .error .jsonDecodeError
    ∧ call_tool (fun _ => .unreachable) "x" (.object "set") = .error .typeError := by
  refine ⟨?_, ?_, ?_, ?_, ?_⟩
  · exact (((C3_failures_propagate (fun _ => .unreachable) "x" (.dict [])
      MCP_ENDPOINT).2 _ rfl).1 rfl)
  · exact (((C3_failures_propagate (fun _ => .respondAfter 31 []) "x" (.dict [])
      MCP_ENDPOINT).2 _ rfl).2.1 31 [] rfl (by decide))
  · exact (((C3_failures_propagate (fun _ => .respondAfter 0 [255]) "x" (.dict [])
      MCP_ENDPOINT).2 _ rfl).2.2.1 0 [255] rfl (by decide) rfl)
  · exact (((C3_failures_propagate (fun _ => .respondAfter 0 (utf8Encode "oops"))
      "x" (.dict []) MCP_ENDPOINT).2 _ rfl).2.2.2 0 (utf8Encode "oops") "oops" rfl
      (by decide) rfl rfl)
  · exact ((C3_failures_propagate (fun _ => .unreachable) "x" (.object "set")
      MCP_ENDPOINT).1 rfl)

theorem call_tool_k_trace (r : Except PyErr (List Nat)) (net : Server) :
    (call_tool_k r).trace net = [] := by
  rcases r with e | body
  · rfl
  · unfold call_tool_k
    rcases hd : utf8Decode body with _ | s
    · simp [hd, NetProg.trace]
    · rcases hl : Json.loads s with _ | v <;> simp [hd, hl, NetProg.trace]

/-- C4: `run_prefab_audit` delegates to `call_tool` with the constant tool
name `prefab_audit` and arguments `\x7bcommand: "prefab_audit", target,
checks: ["naming", "collision", "performance"]\x7d`; in particular at target
`"Foo"` the arguments carry `"Foo"` and the fixed checks list. -/
theorem C4_run_prefab_audit_args (net : Server) (t : String) :
    run_prefab_audit net t = call_tool net "prefab_audit" (prefabAuditArgs t)
    ∧ prefabAuditArgs t =
        .dict [("command", .str "prefab_audit"), ("target", .str t),
               ("checks", .list [.str "naming", .str "collision", .str "performance"])]
    ∧ (prefabAuditArgs "Foo").get "command" = some (.str "prefab_audit")
    ∧ (prefabAuditArgs "Foo").get "target" = some (.str "Foo")
    ∧ (prefabAuditArgs "Foo").get "checks"
        = some (.list [.str "naming", .str "collision", .str "performance"]) :=
  ⟨rfl, rfl, rfl, rfl, rfl⟩

/-- C5: `run_scene_refactor` delegates to `call_tool` with the constant tool
name `scene_refactor` and arguments containing the command, the scene, the
fixed steps list, and the dry-run flag; in particular at `("Bar", dry_run =
false)` the arguments carry `"Bar"` and `false`. -/
theorem C5_run_scene_refactor_args (net : Server) (s : String) (d : Bool) :
    run_scene_refactor net s d = call_tool net "scene_refactor" (sceneRefactorArgs s d)
    ∧ (sceneRefactorArgs s d).get "command" = some (.str "scene_refactor")
    ∧ (sceneRefactorArgs s d).get "scene" = some (.str s)
    ∧ (sceneRefactorArgs s d).get "steps"
        = some (.list [.str "remove_empty_groups", .str "rebuild_navigation"])
    ∧ (sceneRefactorArgs s d).get "dry_run" = some (.bool d)
    ∧ (sceneRefactorArgs "Bar" false).get "scene" = some (.str "Bar")
    ∧ (sceneRefactorArgs "Bar" false).get "dry_run" = some (.bool false) :=
  ⟨rfl, rfl, rfl, rfl, rfl, rfl, rfl⟩

/-- C6: `run_bulk_edit` delegates to `call_tool` with the constant tool name
`bulk_edit_assets`, a `dry_run` field that is `true` for every input, and the
fixed modifications `\x7bdamage: 42, range: 120\x7d`. -/
theorem C6_run_bulk_edit_args (net : Server) (t : String) :
    run_bulk_edit net t = call_tool net "bulk_edit_assets" (bulkEditArgs t)
    ∧ (bulkEditArgs t).get "command" = some (.str "bulk_edit_assets")
    ∧ (bulkEditArgs t).get "target" = some (.str t)
    ∧ (bulkEditArgs t).get "dry_run" = some (.bool true)
    ∧ (bulkEditArgs t).get "modifications"
        = some (.dict [("damage", .int 42), ("range", .int 120)]) :=
  ⟨rfl, rfl, rfl, rfl, rfl⟩

/-- C7: `call_tool` passes a timeout of 30 time units to the single request
it issues, and when the server's delay exceeds 30 the call fails with a
timeout error instead of hanging. -/
theorem C7_call_tool_timeout (tool_name : String) (args : PyVal)
    (endpoint : String) (req : HttpRequest)
    (h : requestOf tool_name args endpoint = some req) :
    call_tool_prog tool_name args endpoint = .ask req 30 call_tool_k
    ∧ ∀ (net : Server) (d : Nat) (body : List Nat),
        net req = .respondAfter d body → 30 < d →
        call_tool net tool_name args endpoint = .error .timeoutError := by
  constructor
  · unfold call_tool_prog
    rw [h]
  · intro net d body h2 h3
    unfold call_tool call_tool_prog
    rw [h]
    simp [NetProg.run, urlopenRead, h2, h3, call_tool_k]

/-- Witness for C7: a server that answers after 31 units makes the call fail
with a timeout error. -/
theorem C7_call_tool_timeout_witness :
    call_tool (fun _ => .respondAfter 31 []) "x" (.dict []) = .error .timeoutError :=
  (C7_call_tool_timeout "x" (.dict []) MCP_ENDPOINT _ rfl).2 _ 31 [] rfl (by decide)

/-- C8 (amended): a `call_tool` invocation issues at most one outbound
request — no implicit retry — and exactly one whenever the arguments are
JSON-serializable; with non-serializable arguments `json.dumps` raises before
any request is sent, so that invocation issues zero. -/
theorem C8_at_most_one_request (net : Server) (tool_name : String)
    (args : PyVal) (endpoint : String) :
    ((call_tool_prog tool_name args endpoint).trace net).length ≤ 1
    ∧ ∀ req, requestOf tool_name args endpoint = some req →
        (call_tool_prog tool_name args endpoint).trace net = [req] := by
  constructor
  · rcases h : requestOf tool_name args endpoint with _ | req
    · simp [call_tool_prog, h, NetProg.trace]
    · simp [call_tool_prog, h, NetProg.trace, call_tool_k_trace]
  · intro req h
    simp [call_tool_prog, h, NetProg.trace, call_tool_k_trace]

/-- Witness for C8: with serializable arguments the trace is exactly the one
POST request to the default endpoint. -/
theorem C8_at_most_one_request_witness :
    (call_tool_prog "x" (.dict []) MCP_ENDPOINT).trace (fun _ => .unreachable)
      = [{ url := MCP_ENDPOINT,
           data := utf8Encode (Json.dumps (envelopeJson "x" (.obj []))),
           headers := [("Content-Type", "application/json")],
           method := "POST" }] :=
  (C8_at_most_one_request (fun _ => .unreachable) "x" (.dict []) MCP_ENDPOINT).2 _ rfl

/-- Counterexample to C8 as stated: an invocation whose arguments are not
JSON-serializable performs zero outbound requests, not exactly one —
`json.dumps` raises `TypeError` before `urlopen` is reached. -/
theorem C8_zero_requests_counterexample :
    ((call_tool_prog "x" (.object "set") MCP_ENDPOINT).trace
        (fun _ => .unreachable)).length = 0
    ∧ ((call_tool_prog "x" (.object "set") MCP_ENDPOINT).trace
        (fun _ => .unreachable)).length ≠ 1 :=
  ⟨rfl, by decide⟩

/-- C9: running the module directly performs the one fixed action — it calls
the prefab-audit helper (whose default target is `"WeaponAssets"`) and prints
the literal status line followed by the JSON response pretty-printed with
2-space indentation. -/
theorem C9_main_prints_audit (net : Server) :
    (∀ r, run_prefab_audit net = .ok r →
      mainStdout net = (["Running prefab audit...", Json.dumpsIndent2 r], none))
    ∧ run_prefab_audit net = call_tool net "prefab_audit" (prefabAuditArgs "WeaponAssets") := by
  constructor
  · intro r h
    unfold mainStdout
    rw [h]
  · rfl

set_option maxRecDepth 10000 in
/-- Witness for C9: against a server answering `\x7b"ok": true\x7d`, the program
prints the status line and the two-space-indented JSON. -/
theorem C9_main_prints_audit_witness :
    mainStdout (fun _ => .respondAfter 0 (utf8Encode "\x7b\"ok\": true\x7d"))
      = (["Running prefab audit...", Json.dumpsIndent2 (.obj [("ok", .bool true)])], none)
    ∧ Json.dumpsIndent2 (.obj [("ok", .bool true)]) = "\x7b\n  \"ok\": true\n\x7d" :=
  ⟨(C9_main_prints_audit (fun _ => .respondAfter 0 (utf8Encode "\x7b\"ok\": true\x7d"))).1
      (.obj [("ok", .bool true)]) rfl,
   rfl⟩

/-- C10: every helper delegates to `call_tool` at the module-level default
endpoint `MCP_ENDPOINT = "http://localhost:8787/mcp"`; none of them passes
(or lets the caller pass) any other endpoint. -/
theorem C10_helpers_use_default_endpoint (net : Server) (t u v : String) (d : Bool) :
    run_prefab_audit net t = call_tool net "prefab_audit" (prefabAuditArgs t) MCP_ENDPOINT
    ∧ run_scene_refactor net u d
        = call_tool net "scene_refactor" (sceneRefactorArgs u d) MCP_ENDPOINT
    ∧ run_bulk_edit net v = call_tool net "bulk_edit_assets" (bulkEditArgs v) MCP_ENDPOINT
    ∧ MCP_ENDPOINT = "http://localhost:8787/mcp" :=
  ⟨rfl, rfl, rfl, rfl⟩
